import Mathlib

/-!
Verification of the delivery-system orchestration core against its
natural-language specification.  The TypeScript services are shallowly
embedded: Redis keys with TTL become association lists paired with absolute
expiry times and an explicit clock `now`; async methods become pure state
transformers; methods that can throw return `Except String`.  Failure of
external effects (database writes, device dispatch, audit-store appends) is
injected through an explicit environment record, mirroring where the source
code can raise.
-/

namespace DeliverySystem

/-! ## Association-list primitives (the key/value view of Redis and Postgres) -/

/-- Lookup by key in an association list (first match wins, as in a map). -/
def alookup {α : Type} : List (String × α) → String → Option α
  | [], _ => none
  | (k, v) :: rest, key => if k = key then some v else alookup rest key

/-- Set a key to a value, overwriting an existing entry (Redis SET / SQL UPDATE). -/
def aset {α : Type} : List (String × α) → String → α → List (String × α)
  | [], key, v => [(key, v)]
  | (k, w) :: rest, key, v =>
    if k = key then (key, v) :: rest else (k, w) :: aset rest key v

/-- Delete a key (Redis DEL). -/
def adel {α : Type} : List (String × α) → String → List (String × α)
  | [], _ => []
  | (k, v) :: rest, key =>
    if k = key then adel rest key else (k, v) :: adel rest key

theorem alookup_aset_self {α : Type} (l : List (String × α)) (k : String) (v : α) :
    alookup (aset l k v) k = some v := by
  induction l with
  | nil => simp [aset, alookup]
  | cons hd tl ih =>
    obtain ⟨k', v'⟩ := hd
    by_cases h : k' = k
    · simp [aset, h, alookup]
    · simp [aset, h, alookup, ih]

theorem alookup_aset_ne {α : Type} (l : List (String × α)) (k k' : String) (v : α)
    (h : k' ≠ k) : alookup (aset l k v) k' = alookup l k' := by
  have h2 : k ≠ k' := Ne.symm h
  induction l with
  | nil => simp [aset, alookup, h2]
  | cons hd tl ih =>
    obtain ⟨k0, v0⟩ := hd
    by_cases h0 : k0 = k
    · subst h0
      simp [aset, alookup, h2]
    · simp [aset, h0, alookup, ih]

theorem alookup_adel_self {α : Type} (l : List (String × α)) (k : String) :
    alookup (adel l k) k = none := by
  induction l with
  | nil => simp [adel, alookup]
  | cons hd tl ih =>
    obtain ⟨k0, v0⟩ := hd
    by_cases h0 : k0 = k
    · simp [adel, h0, ih]
    · simp [adel, h0, alookup, ih]

theorem alookup_adel_ne {α : Type} (l : List (String × α)) (k k' : String)
    (h : k' ≠ k) : alookup (adel l k) k' = alookup l k' := by
  have h2 : k ≠ k' := Ne.symm h
  induction l with
  | nil => simp [adel]
  | cons hd tl ih =>
    obtain ⟨k0, v0⟩ := hd
    by_cases h0 : k0 = k
    · subst h0
      simp [adel, alookup, h2, ih]
    · simp [adel, h0, alookup, ih]

/-- Equality of Except values is decidable componentwise (needed so that
concrete runs of the fallible operations can be checked by evaluation). -/
instance {ε α : Type} [DecidableEq ε] [DecidableEq α] : DecidableEq (Except ε α)
  | Except.ok x, Except.ok y =>
    if h : x = y then Decidable.isTrue (congrArg Except.ok h)
    else Decidable.isFalse (fun hc => h (Except.ok.inj hc))
  | Except.ok _, Except.error _ => Decidable.isFalse (fun hc => Except.noConfusion hc)
  | Except.error _, Except.ok _ => Decidable.isFalse (fun hc => Except.noConfusion hc)
  | Except.error x, Except.error y =>
    if h : x = y then Decidable.isTrue (congrArg Except.error h)
    else Decidable.isFalse (fun hc => h (Except.error.inj hc))

/-! ## Capability (unlock) token model — AuthService

An unlock token is its signed claim set.  `sigValid` models whether the JWT
signature verifies against the unlock-token key (tokens produced by
`generateUnlockToken` carry a valid signature; a tampered or forged wire
token does not). -/

/-- The unlock-token claim set (interface UnlockToken in AuthService.ts). -/
structure UnlockToken where
  jti : String
  tenantId : String
  siteId : String
  shelfId : String
  slotId : String
  orderId : String
  riderId : String
  exp : Nat
  nbf : Nat
  iat : Nat
deriving Repr, DecidableEq

/-- A wire token: claim set plus signature validity. -/
structure SignedUnlockToken where
  payload : UnlockToken
  sigValid : Bool
deriving Repr, DecidableEq

/-- Default unlock-token TTL in seconds (config.jwt.unlockTokenTTL, default 60). -/
def unlockTokenTTL : Nat := 60

/-- Default clock-skew allowance in seconds
(config.security.clockSkewToleranceSeconds, default 10). -/
def clockSkewToleranceSeconds : Nat := 10

/-- RedisService.storeUnlockTokenJti: SETEX of the jti with the given TTL.
The store maps a jti to its absolute expiry time. -/
def storeUnlockTokenJti (jtis : List (String × Nat)) (jti : String) (ttl now : Nat) :
    List (String × Nat) :=
  aset jtis jti (now + ttl)

/-- RedisService.verifyUnlockTokenJti: EXISTS on the jti key.  A key exists
while the clock is strictly before its expiry (Redis lazily expires keys). -/
def verifyUnlockTokenJti (jtis : List (String × Nat)) (jti : String) (now : Nat) : Bool :=
  match alookup jtis jti with
  | some e => decide (now < e)
  | none => false

/-- RedisService.consumeUnlockTokenJti: DEL of the jti key. -/
def consumeUnlockTokenJti (jtis : List (String × Nat)) (jti : String) :
    List (String × Nat) :=
  adel jtis jti

/-- jwt.verify of an unlock token with clockTolerance, per the jsonwebtoken
library: signature must be valid, the token is not-yet-valid when
nbf > now + tolerance, and expired when now ≥ exp + tolerance.  Returns the
decoded payload, or none where the library throws (the caller catches). -/
def jwtVerifyUnlock (tok : SignedUnlockToken) (tol now : Nat) : Option UnlockToken :=
  if tok.sigValid = false then none
  else if now + tol < tok.payload.nbf then none
  else if tok.payload.exp + tol ≤ now then none
  else some tok.payload

/-- AuthService.generateUnlockToken: build the claim set with iat = nbf = now
and exp = now + TTL, sign it, then register the jti with a TTL ten seconds
longer than the token expiry, and return the token. -/
def generateUnlockToken (jtis : List (String × Nat))
    (orderId riderId slotId shelfId siteId tenantId jti : String) (now : Nat) :
    SignedUnlockToken × List (String × Nat) :=
  let payload : UnlockToken :=
    { jti := jti, tenantId := tenantId, siteId := siteId, shelfId := shelfId
      slotId := slotId, orderId := orderId, riderId := riderId
      iat := now, nbf := now, exp := now + unlockTokenTTL }
  ({ payload := payload, sigValid := true },
   storeUnlockTokenJti jtis jti (unlockTokenTTL + 10) now)

/-- AuthService.verifyUnlockToken: verify signature and time claims (any
jwt.verify throw is caught and yields null), check the bound shelf against the
requesting shelf, check the jti is still registered (fail closed as a replay
otherwise), and only then atomically consume the jti and return the claims.
Returns the result together with the updated jti store. -/
def verifyUnlockToken (jtis : List (String × Nat)) (token : SignedUnlockToken)
    (requestingShelfId : String) (tol now : Nat) :
    Option UnlockToken × List (String × Nat) :=
  match jwtVerifyUnlock token tol now with
  | none => (none, jtis)
  | some decoded =>
    if decoded.shelfId ≠ requestingShelfId then (none, jtis)
    else if verifyUnlockTokenJti jtis decoded.jti now = false then (none, jtis)
    else (some decoded, consumeUnlockTokenJti jtis decoded.jti)

theorem jwtVerifyUnlock_eq_some {tok : SignedUnlockToken} {tol now : Nat}
    {d : UnlockToken} (h : jwtVerifyUnlock tok tol now = some d) : d = tok.payload := by
  unfold jwtVerifyUnlock at h
  by_cases h1 : tok.sigValid = false
  · simp [h1] at h
  · by_cases h2 : now + tol < tok.payload.nbf
    · simp [h1, h2] at h
    · by_cases h3 : tok.payload.exp + tol ≤ now
      · simp [h1, h2, h3] at h
      · simp [h1, h2, h3] at h
        exact h.symm

theorem jwtVerifyUnlock_valid {tok : SignedUnlockToken} {tol now : Nat}
    (hsig : tok.sigValid = true) (hnbf : tok.payload.nbf ≤ now + tol)
    (hexp : now < tok.payload.exp + tol) :
    jwtVerifyUnlock tok tol now = some tok.payload := by
  unfold jwtVerifyUnlock
  simp [hsig, Nat.not_lt.mpr hnbf, Nat.not_le.mpr hexp]

/-! ## Data model — Order, Slot, SecurityEvent (OrderOrchestratorService / EventLedgerService) -/

/-- Order lifecycle status (interface Order in the orchestrator). -/
inductive OrderStatus where
  | created | prepared | assigned | picked_up | complete | cancelled
deriving Repr, DecidableEq

/-- Slot lifecycle state (interface Slot).  The source state named open is
rendered opened, since open is a Lean keyword. -/
inductive SlotState where
  | empty | reserved | occupied | unlocking | opened | error
deriving Repr, DecidableEq

/-- One delivery (interface Order; fields not used by any claim are omitted). -/
structure Order where
  id : String
  tenantId : String
  siteId : String
  externalRef : String
  platform : String
  riderId : Option String
  status : OrderStatus
deriving Repr, DecidableEq

/-- One physical cubby (interface Slot). -/
structure Slot where
  id : String
  shelfId : String
  siteId : String
  tenantId : String
  index : Nat
  state : SlotState
  orderId : Option String
  isActive : Bool
deriving Repr, DecidableEq

/-- An audit-ledger record (interface SecurityEvent; the untyped metadata
payload is not modelled, no claim depends on it). -/
structure SecurityEvent where
  id : Option String
  type : String
  tenantId : String
  siteId : Option String
  shelfId : Option String
  slotId : Option String
  orderId : Option String
  riderId : Option String
  userId : Option String
  deviceId : Option String
  timestamp : Option Nat
  createdAt : Option Nat
deriving Repr, DecidableEq

/-- A SecurityEvent with every optional field absent, to be filled per call
site exactly as the source constructs its event object literals. -/
def emptyEvent : SecurityEvent :=
  { id := none, type := "", tenantId := "", siteId := none, shelfId := none
    slotId := none, orderId := none, riderId := none, userId := none
    deviceId := none, timestamp := none, createdAt := none }

/-- The whole observable state: the Redis keyspaces (jti registry, slot
reservations, rate-limit counters, value cache — each entry carries its
absolute expiry), the durable store (slots, orders), and the append-only
audit ledger. -/
structure SysState where
  jtis : List (String × Nat)
  reservations : List (String × (String × Nat))
  rateLimits : List (String × (Nat × Nat))
  cache : List (String × (String × Nat))
  slots : List (String × Slot)
  orders : List (String × Order)
  events : List SecurityEvent
deriving Repr, DecidableEq

/-- Failure-injection environment: which external effects throw during a run,
the outcome of the delegated rider-platform authorization check and of the
step-up TOTP verification, and the fresh identifiers and random values the
run draws (crypto.randomUUID, Math.random). -/
structure Env where
  updateSlotStateFails : Bool
  updateOrderStatusFails : Bool
  otpStoreFails : Bool
  storeEventFails : Bool
  deviceDispatchFails : Bool
  riderAuthorized : Bool
  stepUpOk : Bool
  freshJti : String
  freshEventId : String
  otpValue : String
deriving Repr, DecidableEq

/-- An all-clear environment (no injected failures). -/
def envOk : Env :=
  { updateSlotStateFails := false, updateOrderStatusFails := false
    otpStoreFails := false, storeEventFails := false, deviceDispatchFails := false
    riderAuthorized := true, stepUpOk := true
    freshJti := "jti-1", freshEventId := "evt-1", otpValue := "123456" }

/-! ## Coordination-store primitives — RedisService -/

/-- Default slot-reservation TTL in seconds (config.business.slotReservationTTL,
default 1800). -/
def slotReservationTTL : Nat := 1800

/-- Default unlock-attempt threshold per window (config.business.maxUnlockAttempts,
default 3). -/
def maxUnlockAttempts : Nat := 3

/-- RedisService.getSlotReservation: GET of the reservation key; an expired
entry reads as absent. -/
def getSlotReservation (res : List (String × (String × Nat))) (slotId : String)
    (now : Nat) : Option String :=
  match alookup res slotId with
  | some (o, e) => if now < e then some o else none
  | none => none

/-- RedisService.reserveSlot: SETNX of slotId to orderId (succeeds only when
the key is absent, an expired key counting as absent), then EXPIRE with the
TTL.  Returns whether the reservation was acquired, with the updated store. -/
def reserveSlot (res : List (String × (String × Nat))) (slotId orderId : String)
    (ttl now : Nat) : Bool × List (String × (String × Nat)) :=
  match alookup res slotId with
  | some (_, e) =>
    if now < e then (false, res)
    else (true, aset res slotId (orderId, now + ttl))
  | none => (true, aset res slotId (orderId, now + ttl))

/-- RedisService.releaseSlot: DEL of the reservation key. -/
def releaseSlot (res : List (String × (String × Nat))) (slotId : String) :
    List (String × (String × Nat)) :=
  adel res slotId

/-- RedisService.incrementRateLimit: INCR of the counter (an absent or expired
key restarts at 1), and on the first increment in a window EXPIRE with
ceil(windowMs / 1000) seconds. -/
def incrementRateLimit (rl : List (String × (Nat × Nat))) (key : String)
    (windowMs now : Nat) : Nat × List (String × (Nat × Nat)) :=
  match alookup rl key with
  | some (c, e) =>
    if now < e then (c + 1, aset rl key (c + 1, e))
    else (1, aset rl key (1, now + (windowMs + 999) / 1000))
  | none => (1, aset rl key (1, now + (windowMs + 999) / 1000))

/-- RedisService.setCache: SETEX of a cache key. -/
def setCache (cache : List (String × (String × Nat))) (key value : String)
    (ttl now : Nat) : List (String × (String × Nat)) :=
  aset cache key (value, now + ttl)

/-! ## Audit ledger — EventLedgerService -/

/-- EventLedgerService.logEvent: draw an event id and a timestamp, fill them
into the record (the caller-supplied id would win were one ever passed, per
the object-spread order in the source; timestamp and createdAt are always
overwritten), append durably, and return the id.  A failing durable append
is logged and rethrown, so logEvent itself rejects in that case. -/
def logEvent (storeOk : Bool) (eventId : String) (now : Nat)
    (events : List SecurityEvent) (e : SecurityEvent) :
    Except String (String × List SecurityEvent) :=
  let record : SecurityEvent :=
    { e with id := match e.id with | some i => some i | none => some eventId
             timestamp := some now, createdAt := some now }
  if storeOk then Except.ok (eventId, events ++ [record])
  else Except.error "Failed to log security event"

/-! ## Device command gateway — DeviceService

Command dispatch publishes on the async channel and is fire-and-forget; the
only behavior the claims depend on is whether the publish throws. -/

/-- DeviceService.sendSlotLockCommand: publish a lock_slot command; rethrows
a publish failure. -/
def sendSlotLockCommand (publishOk : Bool) : Except String Unit :=
  if publishOk then Except.ok () else Except.error "device publish failed"

/-- DeviceService.sendEmergencyUnlockCommand: publish an emergency_unlock
command; rethrows a publish failure. -/
def sendEmergencyUnlockCommand (publishOk : Bool) : Except String Unit :=
  if publishOk then Except.ok () else Except.error "device publish failed"

/-! ## Order/Slot Orchestrator — OrderOrchestratorService

The orchestrator's database helpers (getOrder, getSlot, getOrderAssignedSlot,
findAvailableSlot, updateSlotState, updateOrderStatus) are declared in the
source as placeholders over the external durable store; they are modelled
from the spec as reads and writes of the slots/orders tables. -/

/-- Modelled from the spec: getOrder — read one Order row from the durable
store (the source helper is a placeholder over DatabaseService). -/
def getOrder (st : SysState) (orderId : String) : Option Order :=
  alookup st.orders orderId

/-- Modelled from the spec: getSlot — read one Slot row from the durable
store (the source helper is a placeholder over DatabaseService). -/
def getSlot (st : SysState) (slotId : String) : Option Slot :=
  alookup st.slots slotId

/-- Modelled from the spec: getOrderAssignedSlot — the slot bound to the
order, i.e. the slot row referencing this order (the source helper is a
placeholder over DatabaseService). -/
def getOrderAssignedSlot (st : SysState) (orderId : String) : Option Slot :=
  (st.slots.find? (fun p => p.2.orderId = some orderId)).map (fun p => p.2)

/-- Modelled from the spec: findAvailableSlot — deterministically select the
next available empty, active slot at the site: the lowest physical index
(the source helper is a placeholder over DatabaseService). -/
def findAvailableSlot (st : SysState) (siteId tenantId : String) : Option Slot :=
  ((st.slots.map (fun p => p.2)).filter
      (fun s => s.siteId = siteId ∧ s.tenantId = tenantId
        ∧ s.state = SlotState.empty ∧ s.isActive = true)).foldl
    (fun acc s =>
      match acc with
      | none => some s
      | some b => if s.index < b.index then some s else some b) none

/-- Modelled from the spec: updateSlotState — write the slot's state (and,
when given, its bound order) to the durable store; updating an absent row
changes nothing (the source helper is a placeholder over DatabaseService). -/
def updateSlotState (st : SysState) (slotId : String) (state : SlotState)
    (orderId : Option String) : SysState :=
  match alookup st.slots slotId with
  | none => st
  | some s =>
    let s2 : Slot :=
      { s with
          state := state
          orderId := match orderId with | some o => some o | none => s.orderId }
    { st with slots := aset st.slots slotId s2 }

/-- Modelled from the spec: updateOrderStatus — write the order's status to
the durable store; the optional slotId argument only affects the slot side,
which the Order row does not carry (the source helper is a placeholder over
DatabaseService). -/
def updateOrderStatus (st : SysState) (orderId : String) (status : OrderStatus)
    (slotId : Option String) : SysState :=
  match alookup st.orders orderId with
  | none => st
  | some o => { st with orders := aset st.orders orderId { o with status := status } }

/-- generateOrderHash: the last eight characters of the order id. -/
def generateOrderHash (orderId : String) : String :=
  orderId.takeRight 8

/-- generateOrderQRCode: encode orderId, timestamp and validation hash (the
base64/JSON encoding itself carries no information the claims depend on). -/
def generateOrderQRCode (orderId : String) (now : Nat) : String :=
  "qr:" ++ orderId ++ ":" ++ toString now ++ ":" ++ generateOrderHash orderId

/-- generateOrderOTP: draw a six-digit code and store it in the cache with a
30-minute TTL; a failing cache write rethrows. -/
def generateOrderOTP (env : Env) (st : SysState) (orderId : String) (now : Nat) :
    Except String (String × SysState) :=
  if env.otpStoreFails then Except.error "otp cache write failed"
  else Except.ok (env.otpValue,
    { st with cache := setCache st.cache ("otp:" ++ orderId) env.otpValue 1800 now })

/-- A slot-assignment request (interface SlotAssignmentRequest). -/
structure SlotAssignmentRequest where
  orderId : String
  siteId : String
  tenantId : String
  staffId : String
  preferredSlotId : Option String
deriving Repr, DecidableEq

/-- The assignment result surfaced to the caller. -/
structure AssignResult where
  slotId : String
  success : Bool
  qrCode : Option String
  otpCode : Option String
deriving Repr, DecidableEq

/-- The slot_assigned ledger event exactly as assignOrderToSlot constructs it. -/
def slotAssignedEvent (req : SlotAssignmentRequest) (slot : Slot) (order : Order) :
    SecurityEvent :=
  { emptyEvent with
      type := "slot_assigned", tenantId := req.tenantId
      siteId := some req.siteId, shelfId := some slot.shelfId
      slotId := some slot.id, orderId := some order.id, userId := some req.staffId }

/-- Slot selection in assignOrderToSlot: a given preferred slot must be empty
and active; otherwise the next available slot at the site is chosen. -/
def selectSlot (st : SysState) (req : SlotAssignmentRequest) : Except String Slot :=
  match req.preferredSlotId with
  | some p =>
    match getSlot st p with
    | some s =>
      if s.state = SlotState.empty ∧ s.isActive = true then Except.ok s
      else Except.error "Preferred slot is not available"
    | none => Except.error "Preferred slot is not available"
  | none =>
    match findAvailableSlot st req.siteId req.tenantId with
    | some s => Except.ok s
    | none => Except.error "No available slots"

/-- The inner try block of assignOrderToSlot after a successful reservation:
durable slot update, durable order update, QR and OTP generation, the
slot_assigned ledger write, then the device lock-command dispatch.  The
first throwing step aborts with the state mutated so far. -/
def assignTryBody (env : Env) (st : SysState) (order : Order) (slot : Slot)
    (req : SlotAssignmentRequest) (now : Nat) : Except String AssignResult × SysState :=
  if env.updateSlotStateFails then (Except.error "db update slot failed", st)
  else
    let st1 := updateSlotState st slot.id SlotState.reserved (some order.id)
    if env.updateOrderStatusFails then (Except.error "db update order failed", st1)
    else
      let st2 := updateOrderStatus st1 order.id OrderStatus.assigned (some slot.id)
      let qrCode := generateOrderQRCode order.id now
      match generateOrderOTP env st2 order.id now with
      | Except.error e => (Except.error e, st2)
      | Except.ok (otpCode, st3) =>
        match logEvent (!env.storeEventFails) env.freshEventId now st3.events
            (slotAssignedEvent req slot order) with
        | Except.error e => (Except.error e, st3)
        | Except.ok (_, evs) =>
          let st4 := { st3 with events := evs }
          match sendSlotLockCommand (!env.deviceDispatchFails) with
          | Except.error e => (Except.error e, st4)
          | Except.ok _ =>
            (Except.ok { slotId := slot.id, success := true
                         qrCode := some qrCode, otpCode := some otpCode }, st4)

/-- The inner try/catch of assignOrderToSlot: on any failure after the
successful reservation, the compensating rollback releases the slot's
reservation and rethrows the original error. -/
def assignAfterReserve (env : Env) (st : SysState) (order : Order) (slot : Slot)
    (req : SlotAssignmentRequest) (now : Nat) : Except String AssignResult × SysState :=
  match assignTryBody env st order slot req now with
  | (Except.ok r, st') => (Except.ok r, st')
  | (Except.error e, st') =>
    (Except.error e, { st' with reservations := releaseSlot st'.reservations slot.id })

/-- assignOrderToSlot up to its outer catch: validate the order (exists, is
prepared, belongs to the tenant), select the slot, take the atomic Redis
reservation (failing with a slot-taken error when it is held), then run the
post-reservation body. -/
def assignOrderToSlotEx (env : Env) (st : SysState) (req : SlotAssignmentRequest)
    (now : Nat) : Except String AssignResult × SysState :=
  match getOrder st req.orderId with
  | none => (Except.error "Order not found", st)
  | some order =>
    if order.status ≠ OrderStatus.prepared then
      (Except.error "Order status is not valid for assignment", st)
    else if order.tenantId ≠ req.tenantId then
      (Except.error "Order does not belong to this tenant", st)
    else
      match selectSlot st req with
      | Except.error e => (Except.error e, st)
      | Except.ok slot =>
        let rr := reserveSlot st.reservations slot.id order.id slotReservationTTL now
        let stR := { st with reservations := rr.2 }
        if rr.1 = false then
          (Except.error "Slot reservation failed - slot taken by another request", stR)
        else assignAfterReserve env stR order slot req now

/-- assignOrderToSlot: the outer catch maps any thrown error to the failure
result with an empty slot id. -/
def assignOrderToSlot (env : Env) (st : SysState) (req : SlotAssignmentRequest)
    (now : Nat) : AssignResult × SysState :=
  match assignOrderToSlotEx env st req now with
  | (Except.ok r, st') => (r, st')
  | (Except.error _, st') =>
    ({ slotId := "", success := false, qrCode := none, otpCode := none }, st')

/-- An unlock request (interface UnlockRequest). -/
structure UnlockRequest where
  orderId : String
  riderId : String
  slotId : Option String
  deviceFingerprint : Option String
deriving Repr, DecidableEq

/-- The unlock-request result surfaced to the caller. -/
structure UnlockResult where
  unlockToken : Option SignedUnlockToken
  slotId : Option String
  success : Bool
  error : Option String
deriving Repr, DecidableEq

/-- A failed unlock-request result carrying only an error message. -/
def unlockFail (msg : String) : UnlockResult :=
  { unlockToken := none, slotId := none, success := false, error := some msg }

/-- The unlock_rate_limited ledger event exactly as requestUnlock constructs
it (no siteId or shelfId fields in the source object literal). -/
def unlockRateLimitedEvent (order : Order) (slot : Slot) (riderId : String) :
    SecurityEvent :=
  { emptyEvent with
      type := "unlock_rate_limited", tenantId := order.tenantId
      slotId := some slot.id, orderId := some order.id, riderId := some riderId }

/-- The unauthorized_unlock_attempt ledger event exactly as requestUnlock
constructs it. -/
def unauthorizedUnlockEvent (order : Order) (slot : Slot) (riderId : String) :
    SecurityEvent :=
  { emptyEvent with
      type := "unauthorized_unlock_attempt", tenantId := order.tenantId
      slotId := some slot.id, orderId := some order.id, riderId := some riderId }

/-- The unlock_requested ledger event exactly as requestUnlock constructs it. -/
def unlockRequestedEvent (order : Order) (slot : Slot) (riderId : String) :
    SecurityEvent :=
  { emptyEvent with
      type := "unlock_requested", tenantId := order.tenantId
      siteId := some slot.siteId, shelfId := some slot.shelfId
      slotId := some slot.id, orderId := some order.id, riderId := some riderId }

/-- requestUnlock: validate the order is assigned and its bound slot is
reserved or occupied, increment the per-courier sliding rate counter (one
minute window) and reject above the threshold with an unlock_rate_limited
event, run the delegated platform authorization check and reject with an
unauthorized_unlock_attempt event, then mint the single-use capability
token, move the slot to unlocking, and write unlock_requested.  Any thrown
error is caught by the outer handler, which returns a generic failure with
the state mutated so far. -/
def requestUnlock (env : Env) (st : SysState) (req : UnlockRequest) (now : Nat) :
    UnlockResult × SysState :=
  match getOrder st req.orderId with
  | none => (unlockFail "Order not found", st)
  | some order =>
    if order.status ≠ OrderStatus.assigned then
      (unlockFail "Order status is not valid for pickup", st)
    else
      match getOrderAssignedSlot st order.id with
      | none => (unlockFail "No slot assigned to this order", st)
      | some slot =>
        if slot.state ≠ SlotState.reserved ∧ slot.state ≠ SlotState.occupied then
          (unlockFail "Slot state is not valid for unlock", st)
        else
          let rlr := incrementRateLimit st.rateLimits
            ("unlock_attempts:" ++ req.riderId) 60000 now
          let st1 := { st with rateLimits := rlr.2 }
          if rlr.1 > maxUnlockAttempts then
            match logEvent (!env.storeEventFails) env.freshEventId now st1.events
                (unlockRateLimitedEvent order slot req.riderId) with
            | Except.error _ => (unlockFail "Internal server error", st1)
            | Except.ok (_, evs) =>
              (unlockFail "Too many unlock attempts. Please wait.",
               { st1 with events := evs })
          else if env.riderAuthorized = false then
            match logEvent (!env.storeEventFails) env.freshEventId now st1.events
                (unauthorizedUnlockEvent order slot req.riderId) with
            | Except.error _ => (unlockFail "Internal server error", st1)
            | Except.ok (_, evs) =>
              (unlockFail "Rider not authorized for this order",
               { st1 with events := evs })
          else
            let gen := generateUnlockToken st1.jtis order.id req.riderId slot.id
              slot.shelfId slot.siteId order.tenantId env.freshJti now
            let st2 := { st1 with jtis := gen.2 }
            if env.updateSlotStateFails then (unlockFail "Internal server error", st2)
            else
              let st3 := updateSlotState st2 slot.id SlotState.unlocking none
              match logEvent (!env.storeEventFails) env.freshEventId now st3.events
                  (unlockRequestedEvent order slot req.riderId) with
              | Except.error _ => (unlockFail "Internal server error", st3)
              | Except.ok (_, evs) =>
                ({ unlockToken := some gen.1, slotId := some slot.id
                   success := true, error := none }, { st3 with events := evs })

/-- The parcel_picked_up ledger event exactly as confirmUnlock constructs it. -/
def parcelPickedUpEvent (slot : Slot) (order : Order) (riderId : String) :
    SecurityEvent :=
  { emptyEvent with
      type := "parcel_picked_up", tenantId := order.tenantId
      siteId := some slot.siteId, shelfId := some slot.shelfId
      slotId := some slot.id, orderId := some order.id, riderId := some riderId }

/-- confirmUnlock: on a device-reported successful unlock, unconditionally
set the slot to open and the order to picked_up (the source performs no
state-machine check here), write parcel_picked_up when both rows exist, and
schedule the delayed slot reset.  Errors are rethrown after logging. -/
def confirmUnlock (env : Env) (st : SysState) (slotId orderId riderId : String)
    (now : Nat) : Except String Unit × SysState :=
  if env.updateSlotStateFails then (Except.error "db update slot failed", st)
  else
    let st1 := updateSlotState st slotId SlotState.opened none
    if env.updateOrderStatusFails then (Except.error "db update order failed", st1)
    else
      let st2 := updateOrderStatus st1 orderId OrderStatus.picked_up none
      match getSlot st2 slotId, getOrder st2 orderId with
      | some slot, some order =>
        match logEvent (!env.storeEventFails) env.freshEventId now st2.events
            (parcelPickedUpEvent slot order riderId) with
        | Except.error e => (Except.error e, st2)
        | Except.ok (_, evs) => (Except.ok (), { st2 with events := evs })
      | _, _ => (Except.ok (), st2)

/-- resetSlotAfterPickup: the delayed reset scheduled by confirmUnlock — when
the slot is still open, set it back to empty and release its reservation. -/
def resetSlotAfterPickup (st : SysState) (slotId : String) : SysState :=
  match getSlot st slotId with
  | some slot =>
    if slot.state = SlotState.opened then
      let st1 := updateSlotState st slotId SlotState.empty none
      { st1 with reservations := releaseSlot st1.reservations slotId }
    else st
  | none => st

/-- The unlock_failed ledger event exactly as handleUnlockFailure constructs
it (slot fields read from the row fetched before the state update). -/
def unlockFailedEvent (slot : Slot) (order : Order) (slotId orderId riderId : String) :
    SecurityEvent :=
  { emptyEvent with
      type := "unlock_failed", tenantId := order.tenantId
      siteId := some slot.siteId, shelfId := some slot.shelfId
      slotId := some slotId, orderId := some orderId, riderId := some riderId }

/-- handleUnlockFailure: revert an unlocking slot to occupied (a slot in any
other state keeps its state), then write unlock_failed when both rows exist.
The outer handler swallows every error, keeping the mutations made so far. -/
def handleUnlockFailure (env : Env) (st : SysState)
    (slotId orderId riderId reason : String) (now : Nat) : SysState :=
  match getSlot st slotId with
  | none =>
    st
  | some slot =>
    if env.updateSlotStateFails then st
    else
      let newState :=
        if slot.state = SlotState.unlocking then SlotState.occupied else slot.state
      let st1 := updateSlotState st slotId newState none
      match getOrder st1 orderId with
      | none => st1
      | some order =>
        match logEvent (!env.storeEventFails) env.freshEventId now st1.events
            (unlockFailedEvent slot order slotId orderId riderId) with
        | Except.error _ => st1
        | Except.ok (_, evs) => { st1 with events := evs }

/-- The emergency_unlock ledger event exactly as emergencyUnlock constructs it. -/
def emergencyUnlockEvent (slot : Slot) (slotId staffId : String) : SecurityEvent :=
  { emptyEvent with
      type := "emergency_unlock", tenantId := slot.tenantId
      siteId := some slot.siteId, shelfId := some slot.shelfId
      slotId := some slotId, orderId := slot.orderId, userId := some staffId }

/-- emergencyUnlock: gate on the step-up (second-factor) verification, fetch
the slot, dispatch the emergency-unlock device command, force the slot to
open, and write the emergency_unlock event.  The outer handler maps any
thrown error to a false result, keeping the mutations made so far. -/
def emergencyUnlock (env : Env) (st : SysState) (slotId staffId reason : String)
    (now : Nat) : Bool × SysState :=
  if env.stepUpOk = false then (false, st)
  else
    match getSlot st slotId with
    | none => (false, st)
    | some slot =>
      match sendEmergencyUnlockCommand (!env.deviceDispatchFails) with
      | Except.error _ => (false, st)
      | Except.ok _ =>
        if env.updateSlotStateFails then (false, st)
        else
          let st1 := updateSlotState st slotId SlotState.opened none
          match logEvent (!env.storeEventFails) env.freshEventId now st1.events
              (emergencyUnlockEvent slot slotId staffId) with
          | Except.error _ => (false, st1)
          | Except.ok (_, evs) => (true, { st1 with events := evs })

/-! ## Helper lemmas about verifyUnlockToken -/

theorem verifyUnlockTokenJti_adel (jtis : List (String × Nat)) (j : String) (now : Nat) :
    verifyUnlockTokenJti (adel jtis j) j now = false := by
  simp [verifyUnlockTokenJti, alookup_adel_self]

theorem verify_wrong_shelf {jtis : List (String × Nat)} {tok : SignedUnlockToken}
    {shelf : String} {tol now : Nat} (h : tok.payload.shelfId ≠ shelf) :
    verifyUnlockToken jtis tok shelf tol now = (none, jtis) := by
  unfold verifyUnlockToken
  cases hjv : jwtVerifyUnlock tok tol now with
  | none => rfl
  | some d =>
    have hd := jwtVerifyUnlock_eq_some hjv
    subst hd
    simp [h]

theorem verify_success {jtis : List (String × Nat)} {tok : SignedUnlockToken}
    {tol now : Nat}
    (hsig : tok.sigValid = true) (hnbf : tok.payload.nbf ≤ now + tol)
    (hexp : now < tok.payload.exp + tol)
    (hlive : verifyUnlockTokenJti jtis tok.payload.jti now = true) :
    verifyUnlockToken jtis tok tok.payload.shelfId tol now
      = (some tok.payload, adel jtis tok.payload.jti) := by
  unfold verifyUnlockToken
  rw [jwtVerifyUnlock_valid hsig hnbf hexp]
  simp [hlive, consumeUnlockTokenJti]

theorem verify_consumed_none {jtis : List (String × Nat)} {tok : SignedUnlockToken}
    {shelf : String} {tol now : Nat}
    (h : verifyUnlockTokenJti jtis tok.payload.jti now = false) :
    (verifyUnlockToken jtis tok shelf tol now).1 = none := by
  unfold verifyUnlockToken
  cases hjv : jwtVerifyUnlock tok tol now with
  | none => rfl
  | some d =>
    have hd := jwtVerifyUnlock_eq_some hjv
    subst hd
    by_cases hs : tok.payload.shelfId ≠ shelf
    · simp [hs]
    · simp [hs, h]

theorem verify_none_preserves {jtis : List (String × Nat)} {tok : SignedUnlockToken}
    {shelf : String} {tol now : Nat}
    (h : (verifyUnlockToken jtis tok shelf tol now).1 = none) :
    (verifyUnlockToken jtis tok shelf tol now).2 = jtis := by
  unfold verifyUnlockToken at h ⊢
  cases hjv : jwtVerifyUnlock tok tol now with
  | none => simp [hjv]
  | some d =>
    rw [hjv] at h
    by_cases hs : d.shelfId ≠ shelf
    · simp [hjv, hs]
    · by_cases hl : verifyUnlockTokenJti jtis d.jti now = false
      · simp [hjv, hs, hl]
      · simp [hs, hl] at h

/-! ## Claims C1, C3, C4, C10 — the capability-token protocol -/

/-- C1: for every issued unlock token, the first verifyUnlockToken presented
with the correct shelf and within the token's validity window returns the
claims exactly once; every subsequent verification attempt of the same token,
with any shelf, any tolerance and any clock, returns null, because the jti
record is consumed on the first successful verification. -/
theorem C1_unlock_token_single_use
    (jtis0 : List (String × Nat))
    (orderId riderId slotId shelfId siteId tenantId jti : String)
    (now tol t1 : Nat) (tok : SignedUnlockToken) (jtis1 : List (String × Nat))
    (hgen : generateUnlockToken jtis0 orderId riderId slotId shelfId siteId tenantId
      jti now = (tok, jtis1))
    (h1 : now ≤ t1) (h2 : t1 < now + unlockTokenTTL) :
    (verifyUnlockToken jtis1 tok shelfId tol t1).1 = some tok.payload ∧
    ∀ shelf2 tol2 t2,
      (verifyUnlockToken (verifyUnlockToken jtis1 tok shelfId tol t1).2
        tok shelf2 tol2 t2).1 = none := by
  simp only [generateUnlockToken, storeUnlockTokenJti, Prod.mk.injEq] at hgen
  obtain ⟨htok, hjtis⟩ := hgen
  subst htok
  subst hjtis
  have hnbf : now ≤ t1 + tol := Nat.le_trans h1 (Nat.le_add_right t1 tol)
  have hexp : t1 < (now + unlockTokenTTL) + tol :=
    Nat.lt_of_lt_of_le h2 (Nat.le_add_right _ tol)
  have hlive : verifyUnlockTokenJti (aset jtis0 jti (now + (unlockTokenTTL + 10)))
      jti t1 = true := by
    simp only [verifyUnlockTokenJti, alookup_aset_self, decide_eq_true_eq]
    omega
  have hrun : verifyUnlockToken (aset jtis0 jti (now + (unlockTokenTTL + 10)))
      ⟨⟨jti, tenantId, siteId, shelfId, slotId, orderId, riderId,
        now + unlockTokenTTL, now, now⟩, true⟩ shelfId tol t1
      = (some ⟨jti, tenantId, siteId, shelfId, slotId, orderId, riderId,
          now + unlockTokenTTL, now, now⟩,
         adel (aset jtis0 jti (now + (unlockTokenTTL + 10))) jti) :=
    verify_success rfl hnbf hexp hlive
  refine ⟨by rw [hrun], ?_⟩
  intro shelf2 tol2 t2
  rw [hrun]
  exact verify_consumed_none (verifyUnlockTokenJti_adel _ _ _)

/-- C1 witness: a token issued at time 40 is verified once at time 50 against
its own shelf, and a second verification of the same token fails. -/
theorem C1_unlock_token_single_use_witness :
    (verifyUnlockToken [("J1", 110)]
      { payload := { jti := "J1", tenantId := "T1", siteId := "S1", shelfId := "SH1"
                     slotId := "SL1", orderId := "O1", riderId := "R1"
                     exp := 100, nbf := 40, iat := 40 }, sigValid := true }
      "SH1" 10 50).1
      = some { jti := "J1", tenantId := "T1", siteId := "S1", shelfId := "SH1"
               slotId := "SL1", orderId := "O1", riderId := "R1"
               exp := 100, nbf := 40, iat := 40 } ∧
    (verifyUnlockToken
      (verifyUnlockToken [("J1", 110)]
        { payload := { jti := "J1", tenantId := "T1", siteId := "S1", shelfId := "SH1"
                       slotId := "SL1", orderId := "O1", riderId := "R1"
                       exp := 100, nbf := 40, iat := 40 }, sigValid := true }
        "SH1" 10 50).2
      { payload := { jti := "J1", tenantId := "T1", siteId := "S1", shelfId := "SH1"
                     slotId := "SL1", orderId := "O1", riderId := "R1"
                     exp := 100, nbf := 40, iat := 40 }, sigValid := true }
      "SH1" 10 55).1 = none := by
  have h := C1_unlock_token_single_use [] "O1" "R1" "SL1" "SH1" "S1" "T1" "J1"
    40 10 50 _ _ rfl (by decide) (by decide)
  exact ⟨h.1, h.2 "SH1" 10 55⟩

/-- C3: an unlock token bound to shelf A always fails verification when
presented by a different shelf B, even on the first presentation and within
the validity window — verifyUnlockToken returns null. -/
theorem C3_audience_binding (jtis : List (String × Nat)) (tok : SignedUnlockToken)
    (shelfB : String) (tol now : Nat) (h : tok.payload.shelfId ≠ shelfB) :
    (verifyUnlockToken jtis tok shelfB tol now).1 = none := by
  rw [verify_wrong_shelf h]

/-- C3 witness: a fresh, unexpired, validly signed token for shelf A is
rejected when presented by shelf B. -/
theorem C3_audience_binding_witness :
    (verifyUnlockToken [("J1", 110)]
      { payload := { jti := "J1", tenantId := "T1", siteId := "S1", shelfId := "A"
                     slotId := "SL1", orderId := "O1", riderId := "R1"
                     exp := 100, nbf := 40, iat := 40 }, sigValid := true }
      "B" 10 50).1 = none :=
  C3_audience_binding [("J1", 110)]
    { payload := { jti := "J1", tenantId := "T1", siteId := "S1", shelfId := "A"
                   slotId := "SL1", orderId := "O1", riderId := "R1"
                   exp := 100, nbf := 40, iat := 40 }, sigValid := true }
    "B" 10 50 (by decide)

/-- C4 counterexample: the claim says a verification at a time before the
token's nbf returns null, but the code applies the clock-skew tolerance to
the nbf check too: at time 95, five seconds before nbf = 100 and within the
default tolerance of 10 seconds, verification of a live, correctly addressed
token succeeds. -/
theorem C4_counterexample :
    (95 : Nat) < 100 ∧
    (verifyUnlockToken [("J1", 170)]
      { payload := { jti := "J1", tenantId := "T1", siteId := "S1", shelfId := "A"
                     slotId := "SL1", orderId := "O1", riderId := "R1"
                     exp := 160, nbf := 100, iat := 100 }, sigValid := true }
      "A" clockSkewToleranceSeconds 95).1 ≠ none := by
  decide

/-- C4 (amended): a token verified at or after exp plus the clock-skew
allowance returns null even if never previously consumed, and a token
verified more than the clock-skew allowance before its nbf returns null;
within the allowance on either side the time checks pass. -/
theorem C4_expiry_and_nbf_enforced (jtis : List (String × Nat))
    (tok : SignedUnlockToken) (shelf : String) (tol now : Nat) :
    (tok.payload.exp + tol ≤ now → (verifyUnlockToken jtis tok shelf tol now).1 = none) ∧
    (now + tol < tok.payload.nbf → (verifyUnlockToken jtis tok shelf tol now).1 = none) := by
  constructor
  · intro h
    have hnone : jwtVerifyUnlock tok tol now = none := by
      unfold jwtVerifyUnlock
      by_cases h1 : tok.sigValid = false
      · simp [h1]
      · by_cases h2 : now + tol < tok.payload.nbf
        · simp [h1, h2]
        · simp [h1, h2, h]
    simp [verifyUnlockToken, hnone]
  · intro h
    have hnone : jwtVerifyUnlock tok tol now = none := by
      unfold jwtVerifyUnlock
      by_cases h1 : tok.sigValid = false
      · simp [h1]
      · simp [h1, h]
    simp [verifyUnlockToken, hnone]

/-- C4 witness: a token with exp = 50 verified at time 70 (tolerance 10)
fails, and the same token with nbf = 40 verified at time 20 fails. -/
theorem C4_expiry_and_nbf_enforced_witness :
    (verifyUnlockToken [("J1", 170)]
      { payload := { jti := "J1", tenantId := "T1", siteId := "S1", shelfId := "A"
                     slotId := "SL1", orderId := "O1", riderId := "R1"
                     exp := 50, nbf := 40, iat := 40 }, sigValid := true }
      "A" 10 70).1 = none ∧
    (verifyUnlockToken [("J1", 170)]
      { payload := { jti := "J1", tenantId := "T1", siteId := "S1", shelfId := "A"
                     slotId := "SL1", orderId := "O1", riderId := "R1"
                     exp := 50, nbf := 40, iat := 40 }, sigValid := true }
      "A" 10 20).1 = none :=
  ⟨(C4_expiry_and_nbf_enforced [("J1", 170)]
      { payload := { jti := "J1", tenantId := "T1", siteId := "S1", shelfId := "A"
                     slotId := "SL1", orderId := "O1", riderId := "R1"
                     exp := 50, nbf := 40, iat := 40 }, sigValid := true }
      "A" 10 70).1 (by decide),
   (C4_expiry_and_nbf_enforced [("J1", 170)]
      { payload := { jti := "J1", tenantId := "T1", siteId := "S1", shelfId := "A"
                     slotId := "SL1", orderId := "O1", riderId := "R1"
                     exp := 50, nbf := 40, iat := 40 }, sigValid := true }
      "A" 10 20).2 (by decide)⟩

/-- C10: every failing verifyUnlockToken call leaves the jti store unchanged,
so a failed presentation does not burn the token's single use: after a
wrong-shelf probe, a verification by the correct shelf within the validity
window still succeeds; only a fully successful verification consumes the jti. -/
theorem C10_failed_verification_preserves_jti
    (jtis : List (String × Nat)) (tok : SignedUnlockToken) (shelfB : String)
    (tol now : Nat)
    (hB : tok.payload.shelfId ≠ shelfB)
    (hsig : tok.sigValid = true) (hnbf : tok.payload.nbf ≤ now + tol)
    (hexp : now < tok.payload.exp + tol)
    (hlive : verifyUnlockTokenJti jtis tok.payload.jti now = true) :
    (∀ (tok2 : SignedUnlockToken) (shelf2 : String) (tol2 now2 : Nat),
      (verifyUnlockToken jtis tok2 shelf2 tol2 now2).1 = none →
        (verifyUnlockToken jtis tok2 shelf2 tol2 now2).2 = jtis) ∧
    (verifyUnlockToken jtis tok shelfB tol now).1 = none ∧
    (verifyUnlockToken (verifyUnlockToken jtis tok shelfB tol now).2
      tok tok.payload.shelfId tol now).1 = some tok.payload := by
  refine ⟨fun tok2 shelf2 tol2 now2 h => verify_none_preserves h, ?_, ?_⟩
  · rw [verify_wrong_shelf hB]
  · rw [verify_wrong_shelf hB]
    rw [verify_success hsig hnbf hexp hlive]

/-- C10 witness: a wrong-shelf probe of a live token at time 50 fails and
leaves the store unchanged, after which the correct shelf still verifies. -/
theorem C10_failed_verification_preserves_jti_witness :
    ((verifyUnlockToken [("J1", 110)]
      { payload := { jti := "J1", tenantId := "T1", siteId := "S1", shelfId := "A"
                     slotId := "SL1", orderId := "O1", riderId := "R1"
                     exp := 100, nbf := 40, iat := 40 }, sigValid := true }
      "B" 10 50).1 = none) ∧
    ((verifyUnlockToken
      (verifyUnlockToken [("J1", 110)]
        { payload := { jti := "J1", tenantId := "T1", siteId := "S1", shelfId := "A"
                       slotId := "SL1", orderId := "O1", riderId := "R1"
                       exp := 100, nbf := 40, iat := 40 }, sigValid := true }
        "B" 10 50).2
      { payload := { jti := "J1", tenantId := "T1", siteId := "S1", shelfId := "A"
                     slotId := "SL1", orderId := "O1", riderId := "R1"
                     exp := 100, nbf := 40, iat := 40 }, sigValid := true }
      "A" 10 50).1
      = some { jti := "J1", tenantId := "T1", siteId := "S1", shelfId := "A"
               slotId := "SL1", orderId := "O1", riderId := "R1"
               exp := 100, nbf := 40, iat := 40 }) := by
  have h := C10_failed_verification_preserves_jti [("J1", 110)]
    { payload := { jti := "J1", tenantId := "T1", siteId := "S1", shelfId := "A"
                   slotId := "SL1", orderId := "O1", riderId := "R1"
                   exp := 100, nbf := 40, iat := 40 }, sigValid := true }
    "B" 10 50 (by decide) rfl (by decide) (by decide) (by decide)
  exact ⟨h.2.1, h.2.2⟩

/-! ## Shared concrete fixtures for witnesses and counterexamples -/

/-- A prepared order of tenant T1 at site X. -/
def orderA : Order :=
  { id := "O1", tenantId := "T1", siteId := "X", externalRef := "E1"
    platform := "uber_eats", riderId := none, status := OrderStatus.prepared }

/-- An empty, active slot at site X. -/
def slotA : Slot :=
  { id := "S1", shelfId := "SH1", siteId := "X", tenantId := "T1", index := 1
    state := SlotState.empty, orderId := none, isActive := true }

/-- A state with one prepared order and one empty active slot, no reservations. -/
def stAssign : SysState :=
  { jtis := [], reservations := [], rateLimits := [], cache := []
    slots := [("S1", slotA)], orders := [("O1", orderA)], events := [] }

/-- The same state but with the slot already reserved by another order. -/
def stHeld : SysState :=
  { stAssign with reservations := [("S1", ("O9", 100))] }

/-- An assignment request for order O1 preferring slot S1. -/
def reqAssign : SlotAssignmentRequest :=
  { orderId := "O1", siteId := "X", tenantId := "T1", staffId := "U1"
    preferredSlotId := some "S1" }

/-! ## Helper lemmas about reserveSlot -/

theorem reserveSlot_of_held {res : List (String × (String × Nat))}
    {slotId holder : String} {now : Nat}
    (h : getSlotReservation res slotId now = some holder) (orderId : String) (ttl : Nat) :
    reserveSlot res slotId orderId ttl now = (false, res) := by
  unfold getSlotReservation at h
  unfold reserveSlot
  cases halo : alookup res slotId with
  | none => rw [halo] at h; simp at h
  | some p =>
    obtain ⟨o, e⟩ := p
    rw [halo] at h
    by_cases he : now < e
    · simp [he]
    · simp [he] at h

theorem reserveSlot_of_free {res : List (String × (String × Nat))}
    {slotId : String} {now : Nat}
    (h : getSlotReservation res slotId now = none) (orderId : String) (ttl : Nat) :
    reserveSlot res slotId orderId ttl now
      = (true, aset res slotId (orderId, now + ttl)) := by
  unfold getSlotReservation at h
  unfold reserveSlot
  cases halo : alookup res slotId with
  | none => simp
  | some p =>
    obtain ⟨o, e⟩ := p
    rw [halo] at h
    by_cases he : now < e
    · simp [he] at h
    · simp [he]

/-! ## Claim C2 — atomic conditional reservation -/

/-- C2: reserveSlot returns true and records the binding slotId to orderId
with the given expiry exactly when no unexpired reservation for the slot is
present; a later attempt for the same slot before release or expiry returns
false and leaves the binding unchanged; and when the reservation is held,
assignOrderToSlot fails internally with the slot-taken error and surfaces a
failure result without mutating any state. -/
theorem C2_reserve_slot_exclusive
    (res : List (String × (String × Nat))) (slotId orderId orderId2 : String)
    (ttl ttl2 now now2 : Nat)
    (env : Env) (st : SysState) (req : SlotAssignmentRequest) (order : Order)
    (slot : Slot) (holder : String) (tnow : Nat)
    (hord : getOrder st req.orderId = some order)
    (hstat : order.status = OrderStatus.prepared)
    (hten : order.tenantId = req.tenantId)
    (hsel : selectSlot st req = Except.ok slot)
    (hheld : getSlotReservation st.reservations slot.id tnow = some holder) :
    ((reserveSlot res slotId orderId ttl now).1 = true ↔
      getSlotReservation res slotId now = none) ∧
    (getSlotReservation res slotId now = none →
      alookup (reserveSlot res slotId orderId ttl now).2 slotId
        = some (orderId, now + ttl)) ∧
    (getSlotReservation res slotId now = none → now2 < now + ttl →
      reserveSlot (reserveSlot res slotId orderId ttl now).2 slotId orderId2 ttl2 now2
        = (false, (reserveSlot res slotId orderId ttl now).2)) ∧
    assignOrderToSlotEx env st req tnow
      = (Except.error "Slot reservation failed - slot taken by another request", st) ∧
    assignOrderToSlot env st req tnow
      = ({ slotId := "", success := false, qrCode := none, otpCode := none }, st) := by
  have hEx : assignOrderToSlotEx env st req tnow
      = (Except.error "Slot reservation failed - slot taken by another request", st) := by
    unfold assignOrderToSlotEx
    rw [hord]
    simp only [hstat, hten, hsel]
    simp [reserveSlot_of_held hheld order.id slotReservationTTL]
  refine ⟨?_, ?_, ?_, hEx, ?_⟩
  · constructor
    · intro htrue
      cases hg : getSlotReservation res slotId now with
      | none => rfl
      | some o =>
        rw [reserveSlot_of_held hg orderId ttl] at htrue
        simp at htrue
    · intro hfree
      rw [reserveSlot_of_free hfree orderId ttl]
  · intro hfree
    rw [reserveSlot_of_free hfree orderId ttl]
    exact alookup_aset_self res slotId (orderId, now + ttl)
  · intro hfree hlt
    rw [reserveSlot_of_free hfree orderId ttl]
    refine reserveSlot_of_held
      (show getSlotReservation (aset res slotId (orderId, now + ttl)) slotId now2
          = some orderId by simp [getSlotReservation, alookup_aset_self, hlt])
      orderId2 ttl2
  · unfold assignOrderToSlot
    rw [hEx]

/-- C2 witness: on an empty store the reservation succeeds and records the
binding; a second attempt at time 60 fails; a request racing a held
reservation fails with no state change. -/
theorem C2_reserve_slot_exclusive_witness :
    ((reserveSlot [] "S2" "O2" 300 50).1 = true ↔
      getSlotReservation [] "S2" 50 = none) ∧
    alookup (reserveSlot [] "S2" "O2" 300 50).2 "S2" = some ("O2", 50 + 300) ∧
    reserveSlot (reserveSlot [] "S2" "O2" 300 50).2 "S2" "O3" 300 60
      = (false, (reserveSlot [] "S2" "O2" 300 50).2) ∧
    assignOrderToSlot envOk stHeld reqAssign 50
      = ({ slotId := "", success := false, qrCode := none, otpCode := none }, stHeld) := by
  have h := C2_reserve_slot_exclusive [] "S2" "O2" "O3" 300 300 50 60
    envOk stHeld reqAssign orderA slotA "O9" 50
    (by decide) (by decide) (by decide) rfl (by decide)
  exact ⟨h.1, h.2.1 rfl, h.2.2.1 rfl (by decide), h.2.2.2.2⟩

/-! ## Claim C5 — compensating release after post-reservation failure -/

/-- C5 counterexample: the claim says that after a device-command dispatch
failure the slot returns to empty within the reservation-TTL window; in the
code the compensation only releases the Redis reservation — the durable slot
row, already set to reserved, is never reverted: after the failed run the
slot's durable state is reserved, not empty, and the delayed reset (the only
operation that sets a slot back to empty) leaves it untouched since the slot
is not open.  The durable row is outside the TTL mechanism, so it stays
reserved at every later time. -/
theorem C5_counterexample :
    (assignOrderToSlot { envOk with deviceDispatchFails := true } stAssign
        reqAssign 50).1.success = false ∧
    alookup (assignOrderToSlot { envOk with deviceDispatchFails := true } stAssign
        reqAssign 50).2.reservations "S1" = none ∧
    (alookup (assignOrderToSlot { envOk with deviceDispatchFails := true } stAssign
        reqAssign 50).2.slots "S1").map Slot.state = some SlotState.reserved ∧
    some SlotState.reserved ≠ some SlotState.empty ∧
    resetSlotAfterPickup (assignOrderToSlot { envOk with deviceDispatchFails := true }
        stAssign reqAssign 50).2 "S1"
      = (assignOrderToSlot { envOk with deviceDispatchFails := true } stAssign
          reqAssign 50).2 := by
  decide

/-- C5 (amended): if any step after a successful reservation fails, the
compensating rollback releases the slot's reservation before the error is
surfaced; in particular after a device-command dispatch failure the Redis
reservation is released immediately, but the durable slot state, already set
to reserved, is not reverted to empty. -/
theorem C5_release_on_post_reservation_failure
    (env : Env) (st : SysState) (order : Order) (slot : Slot)
    (req : SlotAssignmentRequest) (now : Nat) :
    (∀ (e : String) (st' : SysState),
      assignAfterReserve env st order slot req now = (Except.error e, st') →
        alookup st'.reservations slot.id = none) ∧
    (env.updateSlotStateFails = false → env.updateOrderStatusFails = false →
     env.otpStoreFails = false → env.storeEventFails = false →
     env.deviceDispatchFails = true →
     ∀ (s0 : Slot) (o0 : Order), alookup st.slots slot.id = some s0 →
       alookup st.orders order.id = some o0 →
       (assignAfterReserve env st order slot req now).1
         = Except.error "device publish failed" ∧
       alookup (assignAfterReserve env st order slot req now).2.slots slot.id
         = some { s0 with state := SlotState.reserved, orderId := some order.id } ∧
       alookup (assignAfterReserve env st order slot req now).2.reservations slot.id
         = none) := by
  constructor
  · intro e st' hrun
    unfold assignAfterReserve at hrun
    cases hbody : assignTryBody env st order slot req now with
    | mk exr st'' =>
      rw [hbody] at hrun
      cases exr with
      | ok r => simp at hrun
      | error e' =>
        simp only [Prod.mk.injEq] at hrun
        obtain ⟨-, hst⟩ := hrun
        rw [← hst]
        exact alookup_adel_self _ slot.id
  · intro h1 h2 h3 h4 h5 s0 o0 hslot horder
    have hbody : assignTryBody env st order slot req now
        = (Except.error "device publish failed",
           { st with
               slots := aset st.slots slot.id
                 { s0 with state := SlotState.reserved, orderId := some order.id }
               orders := aset st.orders order.id
                 { o0 with status := OrderStatus.assigned }
               cache := setCache st.cache ("otp:" ++ order.id) env.otpValue 1800 now
               events := st.events ++
                 [{ slotAssignedEvent req slot order with
                     id := some env.freshEventId, timestamp := some now
                     createdAt := some now }] }) := by
      unfold assignTryBody
      simp [h1, h2, h3, h4, h5, generateOrderOTP, logEvent, sendSlotLockCommand,
        updateSlotState, updateOrderStatus, hslot, horder, slotAssignedEvent, emptyEvent]
    unfold assignAfterReserve
    rw [hbody]
    refine ⟨rfl, ?_, ?_⟩
    · exact alookup_aset_self _ _ _
    · exact alookup_adel_self _ _

/-- C5 witness: with the device dispatch failing after a successful
reservation on the concrete fixture, the run errors with the device failure,
the durable slot row is left reserved, and the reservation is released. -/
theorem C5_release_on_post_reservation_failure_witness :
    (assignAfterReserve { envOk with deviceDispatchFails := true } stAssign
        orderA slotA reqAssign 50).1 = Except.error "device publish failed" ∧
    alookup (assignAfterReserve { envOk with deviceDispatchFails := true } stAssign
        orderA slotA reqAssign 50).2.slots "S1"
      = some { slotA with state := SlotState.reserved, orderId := some "O1" } ∧
    alookup (assignAfterReserve { envOk with deviceDispatchFails := true } stAssign
        orderA slotA reqAssign 50).2.reservations "S1" = none := by
  have h := (C5_release_on_post_reservation_failure
    { envOk with deviceDispatchFails := true } stAssign orderA slotA reqAssign 50).2
    rfl rfl rfl rfl rfl slotA orderA rfl rfl
  exact h

/-! ## Claim C6 — audit-write failures and the business workflow -/

/-- C6 counterexample: the claim says logEvent never rejects a well-formed
event and that an audit-write failure never fails assignOrderToSlot, but
logEvent rethrows a failing durable append, and inside assignOrderToSlot
that error propagates: the assignment fails (after releasing the
reservation) merely because the slot_assigned audit write failed. -/
theorem C6_counterexample :
    logEvent false "E1" 5 []
      { emptyEvent with type := "slot_assigned", tenantId := "T1" }
      = Except.error "Failed to log security event" ∧
    (assignOrderToSlot { envOk with storeEventFails := true } stAssign
        reqAssign 50).1.success = false ∧
    alookup (assignOrderToSlot { envOk with storeEventFails := true } stAssign
        reqAssign 50).2.reservations "S1" = none := by
  decide

/-- C6 (amended): logEvent assigns an identifier and timestamp and appends
the event when the durable append succeeds, and rejects exactly when that
append fails; inside assignOrderToSlot a failing slot_assigned audit write
propagates — the reservation is released and the assignment errors with the
audit failure. -/
theorem C6_logEvent_rejects_iff_append_fails
    (eventId : String) (enow : Nat) (events : List SecurityEvent) (e : SecurityEvent)
    (env : Env) (st : SysState) (order : Order) (slot : Slot)
    (req : SlotAssignmentRequest) (now : Nat) (s0 : Slot) (o0 : Order)
    (h1 : env.updateSlotStateFails = false) (h2 : env.updateOrderStatusFails = false)
    (h3 : env.otpStoreFails = false) (h4 : env.storeEventFails = true)
    (hslot : alookup st.slots slot.id = some s0)
    (horder : alookup st.orders order.id = some o0) :
    logEvent true eventId enow events e
      = Except.ok (eventId, events ++
          [{ e with
               id := match e.id with | some i => some i | none => some eventId
               timestamp := some enow, createdAt := some enow }]) ∧
    logEvent false eventId enow events e = Except.error "Failed to log security event" ∧
    (assignAfterReserve env st order slot req now).1
      = Except.error "Failed to log security event" ∧
    alookup (assignAfterReserve env st order slot req now).2.reservations slot.id
      = none := by
  have hbody : assignTryBody env st order slot req now
      = (Except.error "Failed to log security event",
         { st with
             slots := aset st.slots slot.id
               { s0 with state := SlotState.reserved, orderId := some order.id }
             orders := aset st.orders order.id
               { o0 with status := OrderStatus.assigned }
             cache := setCache st.cache ("otp:" ++ order.id) env.otpValue 1800 now }) := by
    unfold assignTryBody
    simp [h1, h2, h3, h4, generateOrderOTP, logEvent, updateSlotState,
      updateOrderStatus, hslot, horder]
  refine ⟨rfl, rfl, ?_, ?_⟩
  · unfold assignAfterReserve
    rw [hbody]
  · unfold assignAfterReserve
    rw [hbody]
    exact alookup_adel_self _ _

/-- C6 witness: on the concrete fixture with a failing audit store, logEvent
appends when the store works, rejects when it fails, and the assignment run
errors with the audit failure after releasing the reservation. -/
theorem C6_logEvent_rejects_iff_append_fails_witness :
    logEvent true "E1" 5 [] { emptyEvent with type := "slot_assigned", tenantId := "T1" }
      = Except.ok ("E1", [{ emptyEvent with
          type := "slot_assigned", tenantId := "T1"
          id := some "E1", timestamp := some 5, createdAt := some 5 }]) ∧
    logEvent false "E1" 5 [] { emptyEvent with type := "slot_assigned", tenantId := "T1" }
      = Except.error "Failed to log security event" ∧
    (assignAfterReserve { envOk with storeEventFails := true } stAssign orderA slotA
        reqAssign 50).1 = Except.error "Failed to log security event" ∧
    alookup (assignAfterReserve { envOk with storeEventFails := true } stAssign orderA
        slotA reqAssign 50).2.reservations "S1" = none := by
  have h := C6_logEvent_rejects_iff_append_fails "E1" 5 []
    { emptyEvent with type := "slot_assigned", tenantId := "T1" }
    { envOk with storeEventFails := true } stAssign orderA slotA reqAssign 50
    slotA orderA rfl rfl rfl rfl rfl rfl
  exact ⟨h.1, h.2.1, h.2.2.1, h.2.2.2⟩

/-! ## Claim C7 — state-machine conformance of the orchestrator operations -/

theorem updateOrderStatus_slots (st : SysState) (orderId : String)
    (status : OrderStatus) (sl : Option String) :
    (updateOrderStatus st orderId status sl).slots = st.slots := by
  unfold updateOrderStatus
  cases alookup st.orders orderId <;> rfl

theorem confirmUnlock_slots (env : Env) (st : SysState)
    (slotId orderId riderId : String) (now : Nat)
    (h1 : env.updateSlotStateFails = false) (h2 : env.updateOrderStatusFails = false) :
    (confirmUnlock env st slotId orderId riderId now).2.slots
      = (updateSlotState st slotId SlotState.opened none).slots := by
  unfold confirmUnlock
  simp only [h1, h2, Bool.false_eq_true, if_false]
  split
  all_goals try split
  all_goals simp [updateOrderStatus_slots]

/-- C7 counterexample: the claim says an operation attempting an invalid
transition — confirmUnlock on an empty slot — fails without mutating state,
but the code performs no state check: on the fixture whose slot S1 is empty,
confirmUnlock succeeds, moves the slot to open (a transition absent from the
state machine) and marks the order picked_up, mutating the state. -/
theorem C7_counterexample :
    (confirmUnlock envOk stAssign "S1" "O1" "R1" 50).1 = Except.ok () ∧
    (alookup (confirmUnlock envOk stAssign "S1" "O1" "R1" 50).2.slots "S1").map
        Slot.state = some SlotState.opened ∧
    (confirmUnlock envOk stAssign "S1" "O1" "R1" 50).2 ≠ stAssign := by
  decide

/-- C7 (amended): the operations with explicit guards reject invalid
transitions without mutating state — requestUnlock on a slot that is neither
reserved nor occupied fails and returns the state unchanged — but
confirmUnlock performs no state-machine check: it unconditionally sets the
slot to open whatever its prior state, so invalid transitions such as empty
to open are possible through it. -/
theorem C7_guard_checks_vs_confirmUnlock
    (env : Env) (st : SysState) (req : UnlockRequest) (order : Order) (slot : Slot)
    (now : Nat) (slotId orderId riderId : String) (s0 : Slot)
    (hord : getOrder st req.orderId = some order)
    (hstat : order.status = OrderStatus.assigned)
    (hslot : getOrderAssignedSlot st order.id = some slot)
    (hbad1 : slot.state ≠ SlotState.reserved)
    (hbad2 : slot.state ≠ SlotState.occupied)
    (henv1 : env.updateSlotStateFails = false)
    (henv2 : env.updateOrderStatusFails = false)
    (hs0 : alookup st.slots slotId = some s0) :
    requestUnlock env st req now
      = (unlockFail "Slot state is not valid for unlock", st) ∧
    alookup (confirmUnlock env st slotId orderId riderId now).2.slots slotId
      = some { s0 with state := SlotState.opened } := by
  constructor
  · unfold requestUnlock
    rw [hord]
    simp [hstat, hslot, hbad1, hbad2]
  · rw [confirmUnlock_slots env st slotId orderId riderId now henv1 henv2]
    unfold updateSlotState
    rw [hs0]
    exact alookup_aset_self _ _ _

/-- An assigned order, used by the unlock-path fixtures. -/
def orderAssigned : Order := { orderA with status := OrderStatus.assigned }

/-- The slot bound to order O1 while unlocking. -/
def slotUnlocking : Slot :=
  { slotA with state := SlotState.unlocking, orderId := some "O1" }

/-- The slot bound to order O1 while reserved. -/
def slotReserved : Slot :=
  { slotA with state := SlotState.reserved, orderId := some "O1" }

/-- A state whose slot S1 is unlocking for assigned order O1. -/
def stUnlocking : SysState :=
  { stAssign with
      slots := [("S1", slotUnlocking)], orders := [("O1", orderAssigned)] }

/-- A state whose slot S1 is reserved for assigned order O1, with the
courier's rate counter already at the threshold. -/
def stRate : SysState :=
  { stAssign with
      slots := [("S1", slotReserved)], orders := [("O1", orderAssigned)]
      rateLimits := [("unlock_attempts:R1", (maxUnlockAttempts, 100))] }

/-- An unlock request by courier R1 for order O1. -/
def reqUnlock : UnlockRequest :=
  { orderId := "O1", riderId := "R1", slotId := none, deviceFingerprint := none }

/-- C7 witness: on the fixture whose slot is unlocking, requestUnlock fails
without mutating state, while confirmUnlock sets the slot to open. -/
theorem C7_guard_checks_vs_confirmUnlock_witness :
    requestUnlock envOk stUnlocking reqUnlock 50
      = (unlockFail "Slot state is not valid for unlock", stUnlocking) ∧
    alookup (confirmUnlock envOk stUnlocking "S1" "O1" "R1" 50).2.slots "S1"
      = some { slotUnlocking with state := SlotState.opened } :=
  C7_guard_checks_vs_confirmUnlock envOk stUnlocking reqUnlock orderAssigned
    slotUnlocking 50 "S1" "O1" "R1" slotUnlocking
    (by decide) (by decide) (by decide) (by decide) (by decide) rfl rfl (by decide)

/-! ## Claim C8 — per-courier rate limiting -/

/-- C8: with the courier's sliding counter already at the configured
threshold N inside an unexpired window, the (N+1)th requestUnlock is
rejected with the rate-limit error, appends exactly one unlock_rate_limited
audit event, mints no token, and changes no slot, order or jti state; and
the rate-limit event type differs from the authorization-rejection event
type. -/
theorem C8_rate_limit_threshold
    (env : Env) (st : SysState) (req : UnlockRequest) (order : Order) (slot : Slot)
    (now expiry : Nat)
    (hord : getOrder st req.orderId = some order)
    (hstat : order.status = OrderStatus.assigned)
    (hslot : getOrderAssignedSlot st order.id = some slot)
    (hstate : slot.state = SlotState.reserved ∨ slot.state = SlotState.occupied)
    (hcount : alookup st.rateLimits ("unlock_attempts:" ++ req.riderId)
      = some (maxUnlockAttempts, expiry))
    (hwin : now < expiry)
    (hstore : env.storeEventFails = false) :
    (requestUnlock env st req now).1
      = unlockFail "Too many unlock attempts. Please wait." ∧
    (requestUnlock env st req now).2.events
      = st.events ++ [{ unlockRateLimitedEvent order slot req.riderId with
          id := some env.freshEventId, timestamp := some now, createdAt := some now }] ∧
    (unlockRateLimitedEvent order slot req.riderId).type = "unlock_rate_limited" ∧
    (unauthorizedUnlockEvent order slot req.riderId).type
      = "unauthorized_unlock_attempt" ∧
    ("unlock_rate_limited" : String) ≠ "unauthorized_unlock_attempt" ∧
    (requestUnlock env st req now).2.slots = st.slots ∧
    (requestUnlock env st req now).2.orders = st.orders ∧
    (requestUnlock env st req now).2.jtis = st.jtis := by
  have hrun : requestUnlock env st req now
      = (unlockFail "Too many unlock attempts. Please wait.",
         { st with
             rateLimits := aset st.rateLimits ("unlock_attempts:" ++ req.riderId)
               (maxUnlockAttempts + 1, expiry)
             events := st.events ++ [{ unlockRateLimitedEvent order slot req.riderId with
               id := some env.freshEventId, timestamp := some now
               createdAt := some now }] }) := by
    unfold requestUnlock
    rw [hord]
    rcases hstate with h | h <;>
      simp [hstat, hslot, h, incrementRateLimit, hcount, hwin, logEvent, hstore,
        unlockRateLimitedEvent, emptyEvent, Nat.lt_succ_self]
  refine ⟨?_, ?_, rfl, rfl, by decide, ?_, ?_, ?_⟩ <;> rw [hrun]

/-- C8 witness: on the fixture whose counter for courier R1 already holds the
threshold inside the window, requestUnlock at time 50 is rejected with the
rate-limit error and appends one unlock_rate_limited event. -/
theorem C8_rate_limit_threshold_witness :
    (requestUnlock envOk stRate reqUnlock 50).1
      = unlockFail "Too many unlock attempts. Please wait." ∧
    (requestUnlock envOk stRate reqUnlock 50).2.events
      = [{ unlockRateLimitedEvent orderAssigned slotReserved "R1" with
          id := some "evt-1", timestamp := some 50, createdAt := some 50 }] ∧
    (requestUnlock envOk stRate reqUnlock 50).2.slots = stRate.slots ∧
    (requestUnlock envOk stRate reqUnlock 50).2.orders = stRate.orders ∧
    (requestUnlock envOk stRate reqUnlock 50).2.jtis = stRate.jtis := by
  have h := C8_rate_limit_threshold envOk stRate reqUnlock orderAssigned slotReserved
    50 100 (by decide) (by decide) (by decide) (Or.inl (by decide)) (by decide)
    (by decide) rfl
  exact ⟨h.1, h.2.1, h.2.2.2.2.2.1, h.2.2.2.2.2.2.1, h.2.2.2.2.2.2.2⟩

/-! ## Claim C9 — handleUnlockFailure reverts to occupied and is idempotent -/

/-- C9: handleUnlockFailure on a slot in unlocking state moves it to
occupied — never to empty — and appends an unlock_failed event while leaving
the orders untouched; calling it a second time for the same failed attempt
leaves the slot in the same occupied state and does not corrupt slot or
order state. -/
theorem C9_handleUnlockFailure_reverts_and_idempotent
    (env : Env) (st : SysState) (slotId orderId riderId reason : String) (now : Nat)
    (slot : Slot) (order : Order)
    (hslot : alookup st.slots slotId = some slot)
    (hstate : slot.state = SlotState.unlocking)
    (hord : alookup st.orders orderId = some order)
    (henv : env.updateSlotStateFails = false)
    (hstore : env.storeEventFails = false) :
    (alookup (handleUnlockFailure env st slotId orderId riderId reason now).slots
        slotId).map Slot.state = some SlotState.occupied ∧
    SlotState.occupied ≠ SlotState.empty ∧
    (handleUnlockFailure env st slotId orderId riderId reason now).events
      = st.events ++ [{ unlockFailedEvent slot order slotId orderId riderId with
          id := some env.freshEventId, timestamp := some now, createdAt := some now }] ∧
    (unlockFailedEvent slot order slotId orderId riderId).type = "unlock_failed" ∧
    (handleUnlockFailure env st slotId orderId riderId reason now).orders
      = st.orders ∧
    alookup (handleUnlockFailure env
        (handleUnlockFailure env st slotId orderId riderId reason now)
        slotId orderId riderId reason now).slots slotId
      = alookup (handleUnlockFailure env st slotId orderId riderId reason now).slots
          slotId ∧
    (handleUnlockFailure env
        (handleUnlockFailure env st slotId orderId riderId reason now)
        slotId orderId riderId reason now).orders = st.orders := by
  have hst1 : handleUnlockFailure env st slotId orderId riderId reason now
      = { st with
            slots := aset st.slots slotId { slot with state := SlotState.occupied }
            events := st.events ++
              [{ unlockFailedEvent slot order slotId orderId riderId with
                  id := some env.freshEventId, timestamp := some now
                  createdAt := some now }] } := by
    unfold handleUnlockFailure
    simp [getSlot, hslot, hstate, henv, hstore, updateSlotState, getOrder, hord,
      logEvent, unlockFailedEvent, emptyEvent]
  have hst2 : handleUnlockFailure env
      (handleUnlockFailure env st slotId orderId riderId reason now)
      slotId orderId riderId reason now
      = { st with
            slots := aset (aset st.slots slotId { slot with state := SlotState.occupied })
              slotId { slot with state := SlotState.occupied }
            events := (st.events ++
              [{ unlockFailedEvent slot order slotId orderId riderId with
                  id := some env.freshEventId, timestamp := some now
                  createdAt := some now }]) ++
              [{ unlockFailedEvent { slot with state := SlotState.occupied } order
                    slotId orderId riderId with
                  id := some env.freshEventId, timestamp := some now
                  createdAt := some now }] } := by
    rw [hst1]
    unfold handleUnlockFailure
    simp [getSlot, alookup_aset_self, henv, hstore, updateSlotState, getOrder, hord,
      logEvent, unlockFailedEvent, emptyEvent]
  refine ⟨?_, by decide, ?_, rfl, ?_, ?_, ?_⟩
  · rw [hst1]
    simp [alookup_aset_self]
  · rw [hst1]
  · rw [hst1]
  · rw [hst2, hst1]
    simp [alookup_aset_self]
  · rw [hst2]

/-- C9 witness: on the fixture whose slot S1 is unlocking, handleUnlockFailure
moves it to occupied with one unlock_failed event; a second identical call
leaves the slot in the same state and the orders untouched. -/
theorem C9_handleUnlockFailure_reverts_and_idempotent_witness :
    (alookup (handleUnlockFailure envOk stUnlocking "S1" "O1" "R1" "jam" 50).slots
        "S1").map Slot.state = some SlotState.occupied ∧
    (handleUnlockFailure envOk stUnlocking "S1" "O1" "R1" "jam" 50).events
      = [{ unlockFailedEvent slotUnlocking orderAssigned "S1" "O1" "R1" with
          id := some "evt-1", timestamp := some 50, createdAt := some 50 }] ∧
    (handleUnlockFailure envOk stUnlocking "S1" "O1" "R1" "jam" 50).orders
      = stUnlocking.orders ∧
    alookup (handleUnlockFailure envOk
        (handleUnlockFailure envOk stUnlocking "S1" "O1" "R1" "jam" 50)
        "S1" "O1" "R1" "jam" 50).slots "S1"
      = alookup (handleUnlockFailure envOk stUnlocking "S1" "O1" "R1" "jam" 50).slots
          "S1" ∧
    (handleUnlockFailure envOk
        (handleUnlockFailure envOk stUnlocking "S1" "O1" "R1" "jam" 50)
        "S1" "O1" "R1" "jam" 50).orders = stUnlocking.orders := by
  have h := C9_handleUnlockFailure_reverts_and_idempotent envOk stUnlocking
    "S1" "O1" "R1" "jam" 50 slotUnlocking orderAssigned
    (by decide) (by decide) (by decide) rfl rfl
  exact ⟨h.1, h.2.2.1, h.2.2.2.2.1, h.2.2.2.2.2.1, h.2.2.2.2.2.2⟩

end DeliverySystem
